import Mathlib

/-!
Verification of the Chronosta game core against its natural-language
specification.  The definitions below are a shallow embedding of the
Python sources: `src/core/config.py`, `src/main.py`,
`src/managers/time_manager.py`, `src/managers/state_manager.py`,
`src/entities/player.py` and `src/managers/save_manager.py`.
Milliseconds and time scales are modelled as exact rationals.
-/

namespace Chronosta

/-! Constants from src/core/config.py. -/

inductive Era
  | PREHISTORIC
  | MEDIEVAL
  | FUTURISTIC
deriving DecidableEq, Repr

def FPS : ℚ := 60

def SLOW_MOTION_FACTOR : ℚ := 1/2

def SLOW_MOTION_DURATION : ℚ := 5000

def SLOW_MOTION_COOLDOWN : ℚ := 30000

/-! Fixed-timestep scheduler state from Game.__init__ (src/main.py lines 24-26). -/

def fixed_time_step : ℚ := 1000 / FPS

def max_frame_time : ℚ := fixed_time_step * 5

/-- Embedding of src/main.py line 72: frame_time = min(frame_time, self.max_frame_time). -/
def clampFrame (ft : ℚ) : ℚ := min ft max_frame_time

theorem fixed_time_step_pos : 0 < fixed_time_step := by
  norm_num [fixed_time_step, FPS]

/-- Embedding of the drain loop of Game.run (src/main.py lines 77-79):
while accumulated_time >= fixed_time_step, emit one fixed update and
subtract fixed_time_step.  Returns (number of steps, final accumulator). -/
def drain (acc : ℚ) : ℕ × ℚ :=
  if h : acc < fixed_time_step then (0, acc)
  else
    let r := drain (acc - fixed_time_step)
    (r.1 + 1, r.2)
termination_by (Int.floor (acc / fixed_time_step)).toNat
decreasing_by
  have hs : (0:ℚ) < fixed_time_step := fixed_time_step_pos
  have hge : fixed_time_step ≤ acc := le_of_not_lt h
  have hdiv : (acc - fixed_time_step) / fixed_time_step = acc / fixed_time_step - 1 := by
    field_simp
  have hfloor : Int.floor ((acc - fixed_time_step) / fixed_time_step)
      = Int.floor (acc / fixed_time_step) - 1 := by
    rw [hdiv, Int.floor_sub_one]
  have hone : (1:ℚ) ≤ acc / fixed_time_step := (one_le_div hs).mpr hge
  have hfone : (1:ℤ) ≤ Int.floor (acc / fixed_time_step) := by
    apply Int.le_floor.mpr
    exact_mod_cast hone
  simp only [hfloor]
  omega

theorem drain_of_lt {acc : ℚ} (h : acc < fixed_time_step) : drain acc = (0, acc) := by
  rw [drain]
  simp [h]

theorem drain_of_ge {acc : ℚ} (h : ¬ acc < fixed_time_step) :
    drain acc = ((drain (acc - fixed_time_step)).1 + 1, (drain (acc - fixed_time_step)).2) := by
  rw [drain]
  simp [h]

/-- Time is conserved by the drain loop. -/
theorem drain_conserve (acc : ℚ) :
    ((drain acc).1 : ℚ) * fixed_time_step + (drain acc).2 = acc := by
  induction acc using drain.induct with
  | case1 acc h =>
    rw [drain_of_lt h]
    push_cast
    ring
  | case2 acc h ih =>
    rw [drain_of_ge h]
    push_cast
    push_cast at ih
    linarith

theorem drain_upper (acc : ℚ) : (drain acc).2 < fixed_time_step := by
  induction acc using drain.induct with
  | case1 acc h => rw [drain_of_lt h]; exact h
  | case2 acc h ih => rw [drain_of_ge h]; exact ih

theorem drain_lower {acc : ℚ} (h : 0 ≤ acc) : 0 ≤ (drain acc).2 := by
  induction acc using drain.induct with
  | case1 acc h' =>
    rw [drain_of_lt h']
    exact h
  | case2 acc h' ih =>
    rw [drain_of_ge h']
    exact ih (by linarith [le_of_not_lt h'])

/-- One scheduling pass of Game.run (src/main.py lines 69-79): clamp the
frame time, add it to the accumulator, then drain whole fixed steps.
The first component counts emitted fixed updates. -/
def schedStep (st : ℕ × ℚ) (ft : ℚ) : ℕ × ℚ :=
  let r := drain (st.2 + clampFrame ft)
  (st.1 + r.1, r.2)

/-- Running the main loop of Game.run over a list of frame times,
starting from accumulated_time = 0 and zero emitted steps. -/
def runSched (fts : List ℚ) : ℕ × ℚ := fts.foldl schedStep (0, 0)

/-- Embedding of src/main.py line 82: interpolation = accumulated_time / fixed_time_step. -/
def interpolation (acc : ℚ) : ℚ := acc / fixed_time_step

theorem runSched_foldl_conserve (fts : List ℚ) (st : ℕ × ℚ) :
    ((fts.foldl schedStep st).1 : ℚ) * fixed_time_step + (fts.foldl schedStep st).2
      = (st.1 : ℚ) * fixed_time_step + st.2 + (fts.map clampFrame).sum := by
  induction fts generalizing st with
  | nil => simp
  | cons ft rest ih =>
    simp only [List.foldl_cons, List.map_cons, List.sum_cons]
    rw [ih]
    have h := drain_conserve (st.2 + clampFrame ft)
    simp only [schedStep]
    push_cast
    linarith

theorem runSched_single_500 : runSched [500] = (5, 0) := by
  have hc : clampFrame 500 = max_frame_time := by
    norm_num [clampFrame, max_frame_time, fixed_time_step, FPS]
  have h0 : (0:ℚ) + clampFrame 500 = 250/3 := by
    rw [hc]; norm_num [max_frame_time, fixed_time_step, FPS]
  have e1 : drain (250/3) = ((drain (200/3)).1 + 1, (drain (200/3)).2) := by
    have := @drain_of_ge (250/3) (by norm_num [fixed_time_step, FPS])
    have harith : (250/3 : ℚ) - fixed_time_step = 200/3 := by
      norm_num [fixed_time_step, FPS]
    rw [harith] at this
    exact this
  have e2 : drain (200/3) = ((drain (150/3)).1 + 1, (drain (150/3)).2) := by
    have := @drain_of_ge (200/3) (by norm_num [fixed_time_step, FPS])
    have harith : (200/3 : ℚ) - fixed_time_step = 150/3 := by
      norm_num [fixed_time_step, FPS]
    rw [harith] at this
    exact this
  have e3 : drain (150/3) = ((drain (100/3)).1 + 1, (drain (100/3)).2) := by
    have := @drain_of_ge (150/3) (by norm_num [fixed_time_step, FPS])
    have harith : (150/3 : ℚ) - fixed_time_step = 100/3 := by
      norm_num [fixed_time_step, FPS]
    rw [harith] at this
    exact this
  have e4 : drain (100/3) = ((drain (50/3)).1 + 1, (drain (50/3)).2) := by
    have := @drain_of_ge (100/3) (by norm_num [fixed_time_step, FPS])
    have harith : (100/3 : ℚ) - fixed_time_step = 50/3 := by
      norm_num [fixed_time_step, FPS]
    rw [harith] at this
    exact this
  have e5 : drain (50/3) = ((drain 0).1 + 1, (drain 0).2) := by
    have := @drain_of_ge (50/3) (by norm_num [fixed_time_step, FPS])
    have harith : (50/3 : ℚ) - fixed_time_step = 0 := by
      norm_num [fixed_time_step, FPS]
    rw [harith] at this
    exact this
  have e6 : drain 0 = (0, 0) := drain_of_lt (by norm_num [fixed_time_step, FPS])
  simp only [runSched, List.foldl_cons, List.foldl_nil, schedStep, h0, e1, e2, e3, e4, e5, e6]

/-- C1: for every finite sequence of frame times, steps emitted times
fixedStep plus the final accumulator equals the sum of the clamped frame
times, and a single 500 ms frame with maxFrameTime = 5 * fixedStep yields
exactly 5 fixed steps (with nothing left over). -/
theorem C1_scheduler_conservation :
    (∀ fts : List ℚ,
      ((runSched fts).1 : ℚ) * fixed_time_step + (runSched fts).2
        = (fts.map clampFrame).sum)
    ∧ (runSched [500]).1 = 5 := by
  constructor
  · intro fts
    have h := runSched_foldl_conserve fts (0, 0)
    simpa [runSched] using h
  · rw [runSched_single_500]

theorem max_frame_time_pos : 0 < max_frame_time := by
  norm_num [max_frame_time, fixed_time_step, FPS]

theorem clampFrame_nonneg {ft : ℚ} (h : 0 ≤ ft) : 0 ≤ clampFrame ft :=
  le_min h (le_of_lt max_frame_time_pos)

theorem runSched_foldl_inv (fts : List ℚ) (st : ℕ × ℚ)
    (hst : 0 ≤ st.2 ∧ st.2 < fixed_time_step) (h : ∀ t ∈ fts, 0 ≤ t) :
    0 ≤ (fts.foldl schedStep st).2 ∧ (fts.foldl schedStep st).2 < fixed_time_step := by
  induction fts generalizing st with
  | nil => simpa using hst
  | cons ft rest ih =>
    simp only [List.foldl_cons]
    apply ih
    · have hft : 0 ≤ clampFrame ft := clampFrame_nonneg (h ft (by simp))
      have hacc : 0 ≤ st.2 + clampFrame ft := by linarith [hst.1]
      exact ⟨drain_lower hacc, drain_upper (st.2 + clampFrame ft)⟩
    · intro t ht
      exact h t (by simp [ht])

/-- C2 counterexample: the code does not clamp negative frame times, so a
single frame time of -1 drives the accumulator negative and the claimed
invariant 0 <= accumulatedTime < fixedStep fails after that pass. -/
theorem C2_invariant_counterexample :
    (runSched [(-1 : ℚ)]).2 = -1
    ∧ ¬ (0 ≤ (runSched [(-1 : ℚ)]).2 ∧ (runSched [(-1 : ℚ)]).2 < fixed_time_step)
    ∧ interpolation ((runSched [(-1 : ℚ)]).2) < 0 := by
  have hc : clampFrame (-1) = -1 := by
    norm_num [clampFrame, max_frame_time, fixed_time_step, FPS]
  have hd : drain ((0:ℚ) + clampFrame (-1)) = (0, -1) := by
    rw [hc]
    norm_num
    exact drain_of_lt (by norm_num [fixed_time_step, FPS])
  have hr : runSched [(-1 : ℚ)] = (0, -1) := by
    simp only [runSched, List.foldl_cons, List.foldl_nil, schedStep, hd]
  refine ⟨by rw [hr], ?_, ?_⟩
  · rw [hr]
    norm_num
  · rw [hr]
    norm_num [interpolation, fixed_time_step, FPS]

/-- C2 amended: for every sequence of nonnegative frame times, after each
scheduling pass the accumulator satisfies 0 <= accumulatedTime < fixedStep,
and hence the interpolation fraction lies in [0,1).  (Negative, malformed
frame times are not clamped by the code and break the invariant.) -/
theorem C2_invariant_nonneg_frames (fts : List ℚ) (h : ∀ t ∈ fts, 0 ≤ t) :
    0 ≤ (runSched fts).2 ∧ (runSched fts).2 < fixed_time_step
    ∧ 0 ≤ interpolation ((runSched fts).2) ∧ interpolation ((runSched fts).2) < 1 := by
  have hinv := runSched_foldl_inv fts (0, 0) (by constructor <;> norm_num [fixed_time_step, FPS]) h
  rw [runSched] at *
  refine ⟨hinv.1, hinv.2, ?_, ?_⟩
  · exact div_nonneg hinv.1 (le_of_lt fixed_time_step_pos)
  · exact (div_lt_one fixed_time_step_pos).mpr hinv.2

/-- C2 witness: the amended invariant instantiated at the frame-time list
[10], whose single frame is nonnegative. -/
theorem C2_invariant_nonneg_frames_witness :
    0 ≤ (runSched [(10:ℚ)]).2 ∧ (runSched [(10:ℚ)]).2 < fixed_time_step
    ∧ 0 ≤ interpolation ((runSched [(10:ℚ)]).2)
    ∧ interpolation ((runSched [(10:ℚ)]).2) < 1 :=
  C2_invariant_nonneg_frames [(10:ℚ)] (by intro t ht; simp at ht; simp [ht])

/-- C3 counterexample: the claim says a negative frame time is clamped to
zero, but the code only caps from above: clampFrame (-10) = -10, which is
not 0 and not in the claimed interval [0, maxFrameTime]. -/
theorem C3_clamp_counterexample :
    clampFrame (-10) = -10 ∧ ¬ (0 ≤ clampFrame (-10)) := by
  constructor
  · norm_num [clampFrame, max_frame_time, fixed_time_step, FPS]
  · norm_num [clampFrame, max_frame_time, fixed_time_step, FPS]

/-- C3 amended: the scheduler clamps each frame time only from above, to
min(frameTime, maxFrameTime): values above maxFrameTime are reduced to
maxFrameTime, values at or below it (including negative, malformed ones)
pass through unchanged, so a negative frame time is propagated into the
accumulator rather than clamped to zero. -/
theorem C3_clamp_upper_only (ft : ℚ) :
    clampFrame ft ≤ max_frame_time
    ∧ (ft ≤ max_frame_time → clampFrame ft = ft)
    ∧ (max_frame_time ≤ ft → clampFrame ft = max_frame_time)
    ∧ (ft < 0 → clampFrame ft = ft) := by
  refine ⟨min_le_right _ _, fun h => min_eq_left h, fun h => min_eq_right h, fun h => ?_⟩
  exact min_eq_left (le_trans (le_of_lt h) (le_of_lt max_frame_time_pos))

/-- C3 witness: the amended clamp behaviour evaluated at the concrete
frame times -10 (propagated unchanged) and 500 (capped). -/
theorem C3_clamp_upper_only_witness :
    clampFrame (-10) = -10 ∧ clampFrame 500 = max_frame_time :=
  ⟨(C3_clamp_upper_only (-10)).2.2.2 (by norm_num),
   (C3_clamp_upper_only 500).2.2.1 (by norm_num [max_frame_time, fixed_time_step, FPS])⟩

/-! TimeManager from src/managers/time_manager.py.  Wall-clock reads
(pygame.time.get_ticks) become an explicit now parameter in milliseconds;
the transition surfaces are opaque, so they are modelled as Option Unit. -/

structure TimeManager where
  time_scale : ℚ
  slow_motion_active : Bool
  slow_motion_end_time : ℚ
  slow_motion_cooldown_end : ℚ
  transitioning : Bool
  transition_progress : ℚ
  transition_speed : ℚ
  current_era : Era
  target_era : Era
  current_surface : Option Unit
  target_surface : Option Unit
deriving DecidableEq, Repr

/-- TimeManager.__init__ (lines 6-21); transition_speed 0.002 = 1/500. -/
def TimeManager.init : TimeManager :=
  { time_scale := 1
    slow_motion_active := false
    slow_motion_end_time := 0
    slow_motion_cooldown_end := 0
    transitioning := false
    transition_progress := 0
    transition_speed := 1/500
    current_era := Era.MEDIEVAL
    target_era := Era.MEDIEVAL
    current_surface := none
    target_surface := none }

/-- TimeManager.start_slow_motion (lines 23-32). -/
def TimeManager.start_slow_motion (now : ℚ) (s : TimeManager) : Bool × TimeManager :=
  if s.slow_motion_active = false ∧ s.slow_motion_cooldown_end ≤ now then
    (true,
      { s with
        slow_motion_active := true
        time_scale := SLOW_MOTION_FACTOR
        slow_motion_end_time := now + SLOW_MOTION_DURATION })
  else (false, s)

/-- Slow-motion block of TimeManager.update (lines 38-43). -/
def TimeManager.updateSlowMotion (now : ℚ) (s : TimeManager) : TimeManager :=
  if s.slow_motion_active = true ∧ s.slow_motion_end_time ≤ now then
    { s with
      slow_motion_active := false
      time_scale := 1
      slow_motion_cooldown_end := now + SLOW_MOTION_COOLDOWN }
  else s

/-- Era-transition block of TimeManager.update (lines 45-53). -/
def TimeManager.updateTransition (s : TimeManager) : TimeManager :=
  if s.transitioning = true then
    let p := s.transition_progress + s.transition_speed
    if 1 ≤ p then
      { s with
        transitioning := false
        transition_progress := 0
        current_era := s.target_era
        current_surface := none
        target_surface := none }
    else { s with transition_progress := p }
  else s

/-- TimeManager.update (lines 34-53): slow-motion block then transition block. -/
def TimeManager.update (now : ℚ) (s : TimeManager) : TimeManager :=
  (s.updateSlowMotion now).updateTransition

/-- TimeManager.start_era_transition (lines 55-68). -/
def TimeManager.start_era_transition (target : Era) (s : TimeManager) : TimeManager :=
  if s.transitioning = true ∨ target = s.current_era then s
  else
    { s with
      transitioning := true
      transition_progress := 0
      target_era := target
      current_surface := match s.current_surface with
        | none => some ()
        | some u => some u
      target_surface := some () }

/-- TimeManager.get_time_scale (lines 85-87). -/
def TimeManager.get_time_scale (s : TimeManager) : ℚ := s.time_scale

/-- One fixed tick of Game.fixed_update (src/main.py lines 35-44): the
time manager is updated first, then dt is scaled by the time scale before
being handed to GameStateManager.update. -/
def fixed_update_scaled_dt (tm : TimeManager) (dt : ℚ) : ℚ := dt * tm.get_time_scale

/-- PlayingState.update (src/managers/state_manager.py lines 136-152)
scales the incoming dt by the time scale once more, and hands the result
to the level, the player, every enemy, and every projectile. -/
def playing_update_scaled_dt (tm : TimeManager) (dt : ℚ) : ℚ := dt * tm.get_time_scale

/-- The dt that actually reaches gameplay logic in one fixed update while
in PlayingState: Game.fixed_update runs TimeManager.update, scales the
fixed step, and PlayingState.update scales the result again. -/
def gameplay_dt (now : ℚ) (tm : TimeManager) : ℚ :=
  let tm2 := tm.update now
  playing_update_scaled_dt tm2 (fixed_update_scaled_dt tm2 fixed_time_step)

theorem updateTransition_preserves_slow (s : TimeManager) :
    (s.updateTransition).time_scale = s.time_scale
    ∧ (s.updateTransition).slow_motion_active = s.slow_motion_active
    ∧ (s.updateTransition).slow_motion_cooldown_end = s.slow_motion_cooldown_end := by
  by_cases ht : s.transitioning = true
  · by_cases hp : 1 ≤ s.transition_progress + s.transition_speed
    · simp [TimeManager.updateTransition, ht, hp]
    · simp [TimeManager.updateTransition, ht, hp]
  · simp [TimeManager.updateTransition, ht]

theorem updateSlowMotion_preserves_transition (now : ℚ) (s : TimeManager) :
    (s.updateSlowMotion now).transitioning = s.transitioning
    ∧ (s.updateSlowMotion now).transition_progress = s.transition_progress
    ∧ (s.updateSlowMotion now).transition_speed = s.transition_speed
    ∧ (s.updateSlowMotion now).current_era = s.current_era
    ∧ (s.updateSlowMotion now).target_era = s.target_era := by
  by_cases hc : s.slow_motion_active = true ∧ s.slow_motion_end_time ≤ now
  · simp [TimeManager.updateSlowMotion, hc]
  · simp [TimeManager.updateSlowMotion, if_neg hc]

/-- A time manager mid slow motion: activation succeeded earlier, the
effect expires at tick 5000 and has not yet expired at tick 100. -/
def slowTM : TimeManager :=
  { TimeManager.init with
    slow_motion_active := true
    time_scale := SLOW_MOTION_FACTOR
    slow_motion_end_time := 5000 }

/-- C4: the time-scale multiplier is applied twice, not once.  With slow
motion active (factor 1/2), the dt handed to the player, enemy, projectile
and level updates in one fixed tick is fixedStep * factor * factor, which
differs from the fixedStep * factor the spec promises. -/
theorem C4_time_scale_applied_twice :
    gameplay_dt 100 slowTM = fixed_time_step * (SLOW_MOTION_FACTOR * SLOW_MOTION_FACTOR)
    ∧ gameplay_dt 100 slowTM ≠ fixed_time_step * SLOW_MOTION_FACTOR := by
  constructor <;>
    norm_num [gameplay_dt, slowTM, TimeManager.init, TimeManager.update,
      TimeManager.updateSlowMotion, TimeManager.updateTransition,
      TimeManager.get_time_scale, playing_update_scaled_dt, fixed_update_scaled_dt,
      SLOW_MOTION_FACTOR, fixed_time_step, FPS]

/-- C5: start_slow_motion succeeds exactly when slow motion is inactive
and the cooldown has elapsed, and then sets the slow-motion factor and an
expiry timestamp; a second call while the first activation is active
returns failure and leaves the whole state (hence the time scale)
unchanged; at natural expiry, update resets the scale to 1 and starts the
cooldown. -/
theorem C5_slow_motion_activation (now now2 now3 : ℚ) (s s2 s3 : TimeManager) :
    ((s.start_slow_motion now).1 = true
        ↔ s.slow_motion_active = false ∧ s.slow_motion_cooldown_end ≤ now)
    ∧ ((s.start_slow_motion now).1 = true →
        ((s.start_slow_motion now).2.slow_motion_active = true
          ∧ (s.start_slow_motion now).2.time_scale = SLOW_MOTION_FACTOR
          ∧ (s.start_slow_motion now).2.slow_motion_end_time = now + SLOW_MOTION_DURATION))
    ∧ (s2.slow_motion_active = true →
        ((s2.start_slow_motion now2).1 = false ∧ (s2.start_slow_motion now2).2 = s2))
    ∧ (s3.slow_motion_active = true → s3.slow_motion_end_time ≤ now3 →
        ((s3.update now3).time_scale = 1
          ∧ (s3.update now3).slow_motion_active = false
          ∧ (s3.update now3).slow_motion_cooldown_end = now3 + SLOW_MOTION_COOLDOWN)) := by
  refine ⟨⟨?_, ?_⟩, ?_, ?_, ?_⟩
  · intro h
    by_cases hc : s.slow_motion_active = false ∧ s.slow_motion_cooldown_end ≤ now
    · exact hc
    · rw [TimeManager.start_slow_motion, if_neg hc] at h
      simp at h
  · intro hc
    rw [TimeManager.start_slow_motion, if_pos hc]
  · intro h
    by_cases hc : s.slow_motion_active = false ∧ s.slow_motion_cooldown_end ≤ now
    · rw [TimeManager.start_slow_motion, if_pos hc]
      exact ⟨rfl, rfl, rfl⟩
    · rw [TimeManager.start_slow_motion, if_neg hc] at h
      simp at h
  · intro hact
    have hc : ¬ (s2.slow_motion_active = false ∧ s2.slow_motion_cooldown_end ≤ now2) := by
      simp [hact]
    rw [TimeManager.start_slow_motion, if_neg hc]
    exact ⟨rfl, rfl⟩
  · intro hact hend
    have h1 : (s3.updateSlowMotion now3).time_scale = 1
        ∧ (s3.updateSlowMotion now3).slow_motion_active = false
        ∧ (s3.updateSlowMotion now3).slow_motion_cooldown_end = now3 + SLOW_MOTION_COOLDOWN := by
      rw [TimeManager.updateSlowMotion, if_pos ⟨hact, hend⟩]
      exact ⟨rfl, rfl, rfl⟩
    have h2 := updateTransition_preserves_slow (s3.updateSlowMotion now3)
    rw [TimeManager.update]
    exact ⟨h2.1.trans h1.1, h2.2.1.trans h1.2.1, h2.2.2.trans h1.2.2⟩

/-- C5 witness: from the initial state at tick 100 activation succeeds
and sets the factor and expiry; on the mid-slow-motion state a second
call fails and changes nothing; at tick 5000 the effect expires and
update resets the scale and starts the cooldown. -/
theorem C5_slow_motion_activation_witness :
    (TimeManager.init.start_slow_motion 100).1 = true
    ∧ (TimeManager.init.start_slow_motion 100).2.time_scale = SLOW_MOTION_FACTOR
    ∧ (slowTM.start_slow_motion 100).1 = false
    ∧ (slowTM.start_slow_motion 100).2 = slowTM
    ∧ (slowTM.update 5000).time_scale = 1
    ∧ (slowTM.update 5000).slow_motion_cooldown_end = 5000 + SLOW_MOTION_COOLDOWN := by
  have h := C5_slow_motion_activation 100 100 5000 TimeManager.init slowTM slowTM
  have hs : (TimeManager.init.start_slow_motion 100).1 = true :=
    h.1.mpr (by constructor <;> decide)
  refine ⟨hs, (h.2.1 hs).2.1, ?_, ?_, ?_, ?_⟩
  · exact (h.2.2.1 (by decide)).1
  · exact (h.2.2.1 (by decide)).2
  · exact (h.2.2.2 (by decide) (by decide)).1
  · exact (h.2.2.2 (by decide) (by decide)).2.2

/-- A time manager with an era transition in progress toward FUTURISTIC,
as set up by start_era_transition from the initial (MEDIEVAL) state. -/
def transTM : TimeManager :=
  { TimeManager.init with
    transitioning := true
    transition_progress := 0
    target_era := Era.FUTURISTIC
    current_surface := some ()
    target_surface := some () }

/-- The same transition one update before completion: the next progress
increment 999/1000 + 1/500 crosses 1. -/
def transNearTM : TimeManager :=
  { transTM with transition_progress := 999/1000 }

/-- C6: start_era_transition called mid-transition, or with the current
era as target, returns the state completely unchanged; while a transition
is in progress and the next progress increment stays below 1, update
leaves the current era untouched and only advances the progress; on the
step where progress reaches 1 the current era changes to the target era
and the transition ends; with no transition in progress update never
changes the era. -/
theorem C6_era_changes_once (s t u v : TimeManager) (target : Era) (now : ℚ) :
    (s.transitioning = true ∨ target = s.current_era →
        TimeManager.start_era_transition target s = s)
    ∧ (t.transitioning = true → t.transition_progress + t.transition_speed < 1 →
        ((t.update now).current_era = t.current_era
          ∧ (t.update now).transitioning = true
          ∧ (t.update now).transition_progress
              = t.transition_progress + t.transition_speed))
    ∧ (u.transitioning = true → 1 ≤ u.transition_progress + u.transition_speed →
        ((u.update now).current_era = u.target_era
          ∧ (u.update now).transitioning = false
          ∧ (u.update now).transition_progress = 0))
    ∧ (v.transitioning = false →
        ((v.update now).current_era = v.current_era
          ∧ (v.update now).transitioning = false)) := by
  refine ⟨?_, ?_, ?_, ?_⟩
  · intro h
    rw [TimeManager.start_era_transition, if_pos h]
  · intro ht hp
    have hpre := updateSlowMotion_preserves_transition now t
    rw [TimeManager.update]
    have ht1 : (t.updateSlowMotion now).transitioning = true := hpre.1.trans ht
    have hp1 : ¬ (1 ≤ (t.updateSlowMotion now).transition_progress
        + (t.updateSlowMotion now).transition_speed) := by
      rw [hpre.2.1, hpre.2.2.1]
      exact not_le.mpr hp
    have hp2 : ¬ (1 ≤ t.transition_progress + t.transition_speed) := not_le.mpr hp
    simp [TimeManager.updateTransition, ht1, hp1, hp2, hpre.2.1, hpre.2.2.1,
      hpre.2.2.2.1]
  · intro ht hp
    have hpre := updateSlowMotion_preserves_transition now u
    rw [TimeManager.update]
    have ht1 : (u.updateSlowMotion now).transitioning = true := hpre.1.trans ht
    have hp1 : 1 ≤ (u.updateSlowMotion now).transition_progress
        + (u.updateSlowMotion now).transition_speed := by
      rw [hpre.2.1, hpre.2.2.1]
      exact hp
    simp [TimeManager.updateTransition, ht1, hp1, hpre.2.2.2.2]
  · intro ht
    have hpre := updateSlowMotion_preserves_transition now v
    rw [TimeManager.update]
    have ht1 : (v.updateSlowMotion now).transitioning = false := hpre.1.trans ht
    simp [TimeManager.updateTransition, ht1, hpre.2.2.2.1]

/-- C6 witness: on the concrete mid-transition state, a second
start_era_transition is a no-op; an update from progress 0 keeps the era
MEDIEVAL; from progress 999/1000 the update switches the era to the
target FUTURISTIC exactly as progress reaches 1; the idle initial state
never changes era. -/
theorem C6_era_changes_once_witness :
    TimeManager.start_era_transition Era.PREHISTORIC transTM = transTM
    ∧ (transTM.update 0).current_era = transTM.current_era
    ∧ (transTM.update 0).transitioning = true
    ∧ (transNearTM.update 0).current_era = transNearTM.target_era
    ∧ (transNearTM.update 0).transitioning = false
    ∧ (TimeManager.init.update 0).current_era = TimeManager.init.current_era := by
  have h := C6_era_changes_once transTM transTM transNearTM TimeManager.init
    Era.PREHISTORIC 0
  have hb := h.2.1 (by decide) (by norm_num [transTM, TimeManager.init])
  have hc := h.2.2.1 (by decide) (by norm_num [transNearTM, transTM, TimeManager.init])
  exact ⟨h.1 (Or.inl (by decide)), hb.1, hb.2.1, hc.1, hc.2.1, (h.2.2.2 (by decide)).1⟩

/-! Game mode machine from src/managers/state_manager.py. -/

inductive GameState
  | MENU
  | PLAYING
  | PAUSED
  | ERA_TRANSITION
deriving DecidableEq, Repr

/-- The pygame keys that the state handlers inspect. -/
inductive Key
  | K_ESCAPE
  | K_UP
  | K_DOWN
  | K_RETURN
  | K_SPACE
  | K_q
  | K_z
  | K_e
  | K_LSHIFT
  | K_OTHER
deriving DecidableEq, Repr

/-- A pygame event as seen by the handlers: KEYDOWN with a key, or any
other event type. -/
inductive Event
  | keyDown (k : Key)
  | keyUp (k : Key)
  | quitEvent
  | otherEvent
deriving DecidableEq, Repr

/-- Mutable fields of PausedState (lines 216-223) that handle_event can
touch; selected_option is a Python int, and menu_options has length 2. -/
structure PausedState where
  overlay_alpha : ℚ
  selected_option : ℤ
deriving DecidableEq, Repr

/-- PausedState.handle_event (lines 256-271).  Takes the current manager
mode (set_state target) and returns the new PausedState together with the
manager mode after the event.  Python % on ints is Int.emod. -/
def paused_handle_event (ev : Event) (ps : PausedState) (mode : GameState) :
    PausedState × GameState :=
  match ev with
  | Event.keyDown Key.K_ESCAPE => (ps, GameState.PLAYING)
  | Event.keyDown Key.K_UP =>
      ({ ps with selected_option := (ps.selected_option - 1) % 2 }, mode)
  | Event.keyDown Key.K_DOWN =>
      ({ ps with selected_option := (ps.selected_option + 1) % 2 }, mode)
  | Event.keyDown Key.K_RETURN =>
      if ps.selected_option = 0 then (ps, GameState.PLAYING)
      else (ps, GameState.MENU)
  | _ => (ps, mode)

/-- C7: from Paused the only mode changes an input event can cause are to
Playing (escape, or return on the Resume option) and to Menu (return on
the other option); every event that is not escape-keydown or
return-keydown leaves the mode at Paused, ignored rather than an error. -/
theorem C7_paused_only_resume_or_quit (ev : Event) (ps : PausedState) :
    ((paused_handle_event ev ps GameState.PAUSED).2 = GameState.PLAYING
      ∨ (paused_handle_event ev ps GameState.PAUSED).2 = GameState.MENU
      ∨ (paused_handle_event ev ps GameState.PAUSED).2 = GameState.PAUSED)
    ∧ ((paused_handle_event ev ps GameState.PAUSED).2 = GameState.PLAYING →
        ev = Event.keyDown Key.K_ESCAPE
          ∨ (ev = Event.keyDown Key.K_RETURN ∧ ps.selected_option = 0))
    ∧ ((paused_handle_event ev ps GameState.PAUSED).2 = GameState.MENU →
        ev = Event.keyDown Key.K_RETURN ∧ ¬ ps.selected_option = 0)
    ∧ (ev ≠ Event.keyDown Key.K_ESCAPE → ev ≠ Event.keyDown Key.K_RETURN →
        (paused_handle_event ev ps GameState.PAUSED).2 = GameState.PAUSED) := by
  cases ev with
  | keyDown k =>
    cases k <;> by_cases h : ps.selected_option = 0 <;>
      simp [paused_handle_event, h]
  | keyUp k => simp [paused_handle_event]
  | quitEvent => simp [paused_handle_event]
  | otherEvent => simp [paused_handle_event]

/-- C7 witness: concrete Paused states; a space keydown (an input with no
meaning while paused) leaves the mode Paused, escape resumes to Playing,
and return on the second option quits to Menu. -/
theorem C7_paused_only_resume_or_quit_witness :
    (paused_handle_event (Event.keyDown Key.K_SPACE) ⟨0, 0⟩ GameState.PAUSED).2
        = GameState.PAUSED
    ∧ ((paused_handle_event (Event.keyDown Key.K_ESCAPE) ⟨0, 0⟩ GameState.PAUSED).2
          = GameState.PLAYING
        ∨ (paused_handle_event (Event.keyDown Key.K_ESCAPE) ⟨0, 0⟩ GameState.PAUSED).2
          = GameState.MENU
        ∨ (paused_handle_event (Event.keyDown Key.K_ESCAPE) ⟨0, 0⟩ GameState.PAUSED).2
          = GameState.PAUSED)
    ∧ (paused_handle_event (Event.keyDown Key.K_RETURN) ⟨0, 1⟩ GameState.PAUSED).2
        = GameState.MENU :=
  ⟨(C7_paused_only_resume_or_quit (Event.keyDown Key.K_SPACE) ⟨0, 0⟩).2.2.2
      (by decide) (by decide),
   (C7_paused_only_resume_or_quit (Event.keyDown Key.K_ESCAPE) ⟨0, 0⟩).1,
   by decide⟩

/-! Player entity from src/entities/player.py, with pygame.Rect modelled
as integer-coordinate axis-aligned rectangles and pygame.math.Vector2 as
a pair of rationals. -/

def PLAYER_MAX_HEALTH : ℤ := 100

def PLAYER_MAX_STAMINA : ℚ := 100

def STAMINA_REGEN_RATE : ℚ := 20

def PREHISTORIC_POWER_COOLDOWN : ℚ := 15000

def MEDIEVAL_POWER_COOLDOWN : ℚ := 3000

def FUTURISTIC_POWER_COOLDOWN : ℚ := 60000

/-- pygame.Rect: integer position and size. -/
structure Rect where
  x : ℤ
  y : ℤ
  w : ℤ
  h : ℤ
deriving DecidableEq, Repr

/-- pygame.Rect.colliderect: overlap test with strict inequalities (rects
that merely touch do not collide). -/
def Rect.colliderect (a b : Rect) : Bool :=
  decide (a.x < b.x + b.w) && decide (b.x < a.x + a.w)
    && decide (a.y < b.y + b.h) && decide (b.y < a.y + a.h)

structure Vector2 where
  x : ℚ
  y : ℚ
deriving DecidableEq, Repr

/-- Mutable state of the Player sprite (Player.__init__, lines 6-39);
the 32x64 image is represented by its fill colour. -/
structure Player where
  rect : Rect
  velocity : Vector2
  on_ground : Bool
  max_health : ℤ
  health : ℤ
  max_stamina : ℚ
  stamina : ℚ
  stamina_regen : ℚ
  era_power_cooldown : ℚ
  slow_motion_cooldown : ℚ
  current_era : Era
  color : ℤ × ℤ × ℤ
deriving DecidableEq, Repr

/-- Era colour dictionary shared by Player._update_appearance (lines
59-63) and TimeManager._get_era_color (lines 92-96). -/
def era_color : Era → ℤ × ℤ × ℤ
  | Era.PREHISTORIC => (139, 69, 19)
  | Era.MEDIEVAL => (128, 128, 128)
  | Era.FUTURISTIC => (0, 255, 255)

/-- Player._update_appearance (lines 57-64). -/
def Player.update_appearance (p : Player) : Player :=
  { p with color := era_color p.current_era }

/-- Player.switch_era (lines 49-55): set the new era, reset the era power
cooldown, update appearance. -/
def Player.switch_era (new_era : Era) (p : Player) : Player :=
  Player.update_appearance
    { p with current_era := new_era, era_power_cooldown := 0 }

/-- C10: switch_era unconditionally resets the era power cooldown to 0
and installs the target era, for every player state and every target era,
leaving the other cooldown untouched. -/
theorem C10_switch_era_resets_cooldown :
    ∀ (p : Player) (e : Era),
      (Player.switch_era e p).era_power_cooldown = 0
      ∧ (Player.switch_era e p).current_era = e
      ∧ (Player.switch_era e p).slow_motion_cooldown = p.slow_motion_cooldown := by
  intro p e
  simp [Player.switch_era, Player.update_appearance]

/-- Axis selector for Player._handle_collision. -/
inductive Dir
  | horizontal
  | vertical
deriving DecidableEq, Repr

/-- Body of the loop of Player._handle_collision (lines 122-139) for a
single wall: resolve overlap on one axis, snapping to the wall edge and
zeroing the velocity component; a downward hit also grounds the player. -/
def Player.handle_collision_wall (dir : Dir) (p : Player) (wall : Rect) : Player :=
  if Rect.colliderect p.rect wall then
    match dir with
    | Dir.horizontal =>
        if 0 < p.velocity.x then
          { p with rect := { p.rect with x := wall.x - p.rect.w }
                   velocity := { p.velocity with x := 0 } }
        else
          { p with rect := { p.rect with x := wall.x + wall.w }
                   velocity := { p.velocity with x := 0 } }
    | Dir.vertical =>
        if 0 < p.velocity.y then
          { p with rect := { p.rect with y := wall.y - p.rect.h }
                   velocity := { p.velocity with y := 0 }
                   on_ground := true }
        else
          { p with rect := { p.rect with y := wall.y + wall.h }
                   velocity := { p.velocity with y := 0 } }
  else p

/-- Player._handle_collision (lines 122-139): iterate over all walls. -/
def Player.handle_collision (walls : List Rect) (dir : Dir) (p : Player) : Player :=
  walls.foldl (fun q wall => Player.handle_collision_wall dir q wall) p

/-- Python int() truncation toward zero, as applied when a float is
assigned to a pygame.Rect coordinate. -/
def pyInt (q : ℚ) : ℤ := if 0 ≤ q then Int.floor q else -(Int.floor (-q))

/-- Player._move (lines 109-120): integrate each axis by velocity *
(dt/1000) and resolve collisions per axis, horizontal pass first, then
vertical pass. -/
def Player.move (dt : ℚ) (walls : List Rect) (p : Player) : Player :=
  let dt_seconds := dt / 1000
  let p1 := { p with rect :=
    { p.rect with x := pyInt ((p.rect.x : ℚ) + p.velocity.x * dt_seconds) } }
  let p2 := Player.handle_collision walls Dir.horizontal p1
  let p3 := { p2 with rect :=
    { p2.rect with y := pyInt ((p2.rect.y : ℚ) + p2.velocity.y * dt_seconds) } }
  Player.handle_collision walls Dir.vertical p3

/-- C8: in the per-axis collision resolution, a body moving downward that
overlaps a static collider ends the vertical pass with zero vertical
velocity, grounded, and its bottom edge flush with the collider's top; a
body moving right (resp. left) into a wall ends the horizontal pass with
zero horizontal velocity and its right (resp. left) edge flush with the
wall's left (resp. right) edge; an upward collision zeroes the vertical
velocity and snaps the top edge without grounding. -/
theorem C8_collision_resolution (a b c d : Player) (wl : Rect) :
    (Rect.colliderect a.rect wl = true → 0 < a.velocity.y →
        ((Player.handle_collision [wl] Dir.vertical a).velocity.y = 0
          ∧ (Player.handle_collision [wl] Dir.vertical a).on_ground = true
          ∧ (Player.handle_collision [wl] Dir.vertical a).rect.y
              + (Player.handle_collision [wl] Dir.vertical a).rect.h = wl.y))
    ∧ (Rect.colliderect b.rect wl = true → 0 < b.velocity.x →
        ((Player.handle_collision [wl] Dir.horizontal b).velocity.x = 0
          ∧ (Player.handle_collision [wl] Dir.horizontal b).rect.x
              + (Player.handle_collision [wl] Dir.horizontal b).rect.w = wl.x))
    ∧ (Rect.colliderect c.rect wl = true → c.velocity.x < 0 →
        ((Player.handle_collision [wl] Dir.horizontal c).velocity.x = 0
          ∧ (Player.handle_collision [wl] Dir.horizontal c).rect.x = wl.x + wl.w))
    ∧ (Rect.colliderect d.rect wl = true → d.velocity.y < 0 →
        ((Player.handle_collision [wl] Dir.vertical d).velocity.y = 0
          ∧ (Player.handle_collision [wl] Dir.vertical d).on_ground = d.on_ground
          ∧ (Player.handle_collision [wl] Dir.vertical d).rect.y = wl.y + wl.h)) := by
  refine ⟨?_, ?_, ?_, ?_⟩
  · intro hcol hv
    simp [Player.handle_collision, Player.handle_collision_wall, hcol, hv]
  · intro hcol hv
    simp [Player.handle_collision, Player.handle_collision_wall, hcol, hv]
  · intro hcol hv
    have hnv : ¬ 0 < c.velocity.x := not_lt.mpr (le_of_lt hv)
    simp [Player.handle_collision, Player.handle_collision_wall, hcol, hnv]
  · intro hcol hv
    have hnv : ¬ 0 < d.velocity.y := not_lt.mpr (le_of_lt hv)
    simp [Player.handle_collision, Player.handle_collision_wall, hcol, hnv]

/-- A player at a given rectangle with a given velocity; the remaining
fields take their Player.__init__ values. -/
def testPlayer (r : Rect) (vx vy : ℚ) : Player :=
  { rect := r
    velocity := { x := vx, y := vy }
    on_ground := false
    max_health := PLAYER_MAX_HEALTH
    health := PLAYER_MAX_HEALTH
    max_stamina := PLAYER_MAX_STAMINA
    stamina := PLAYER_MAX_STAMINA
    stamina_regen := STAMINA_REGEN_RATE
    era_power_cooldown := 0
    slow_motion_cooldown := 0
    current_era := Era.MEDIEVAL
    color := (255, 0, 0) }

/-- C8 witness: against the wall (50,50)-(90,90), a falling body overlaps
and lands flush and grounded; a rightward and a leftward mover snap flush
with zeroed horizontal velocity; an upward mover snaps its top edge
without grounding. -/
theorem C8_collision_resolution_witness :
    ((Player.handle_collision [Rect.mk 50 50 40 40] Dir.vertical
        (testPlayer (Rect.mk 50 0 32 64) 0 5)).velocity.y = 0
      ∧ (Player.handle_collision [Rect.mk 50 50 40 40] Dir.vertical
          (testPlayer (Rect.mk 50 0 32 64) 0 5)).on_ground = true
      ∧ (Player.handle_collision [Rect.mk 50 50 40 40] Dir.vertical
            (testPlayer (Rect.mk 50 0 32 64) 0 5)).rect.y
          + (Player.handle_collision [Rect.mk 50 50 40 40] Dir.vertical
              (testPlayer (Rect.mk 50 0 32 64) 0 5)).rect.h = 50)
    ∧ ((Player.handle_collision [Rect.mk 50 50 40 40] Dir.horizontal
          (testPlayer (Rect.mk 30 50 32 40) 5 0)).velocity.x = 0
      ∧ (Player.handle_collision [Rect.mk 50 50 40 40] Dir.horizontal
            (testPlayer (Rect.mk 30 50 32 40) 5 0)).rect.x
          + (Player.handle_collision [Rect.mk 50 50 40 40] Dir.horizontal
              (testPlayer (Rect.mk 30 50 32 40) 5 0)).rect.w = 50)
    ∧ ((Player.handle_collision [Rect.mk 50 50 40 40] Dir.horizontal
          (testPlayer (Rect.mk 80 50 32 40) (-5) 0)).velocity.x = 0
      ∧ (Player.handle_collision [Rect.mk 50 50 40 40] Dir.horizontal
          (testPlayer (Rect.mk 80 50 32 40) (-5) 0)).rect.x = 90)
    ∧ ((Player.handle_collision [Rect.mk 50 50 40 40] Dir.vertical
          (testPlayer (Rect.mk 50 80 32 40) 0 (-5))).velocity.y = 0
      ∧ (Player.handle_collision [Rect.mk 50 50 40 40] Dir.vertical
          (testPlayer (Rect.mk 50 80 32 40) 0 (-5))).rect.y = 90) := by
  have h := C8_collision_resolution
    (testPlayer (Rect.mk 50 0 32 64) 0 5)
    (testPlayer (Rect.mk 30 50 32 40) 5 0)
    (testPlayer (Rect.mk 80 50 32 40) (-5) 0)
    (testPlayer (Rect.mk 50 80 32 40) 0 (-5))
    (Rect.mk 50 50 40 40)
  have ha := h.1 (by decide) (by decide)
  have hb := h.2.1 (by decide) (by decide)
  have hc := h.2.2.1 (by decide) (by decide)
  have hd := h.2.2.2 (by decide) (by decide)
  exact ⟨⟨ha.1, ha.2.1, ha.2.2⟩, hb, hc, ⟨hd.1, hd.2.2⟩⟩

/-! Save system from src/managers/save_manager.py.  The save directory is
modelled as a list of files in os.listdir order, each with a name, a
modification time, and either a parsed save payload or none when reading
or JSON-decoding the file raises (the exception is caught by the
surrounding try blocks).  The SHA-256 digest of the serialized payload is
an opaque function hash over opaque payloads. -/

structure SaveData where
  game_data : ℕ
  checksum : ℕ
deriving DecidableEq, Repr

structure FSEntry where
  name : String
  mtime : ℤ
  content : Option SaveData
deriving DecidableEq, Repr

def FileSys : Type := List FSEntry

/-- Python str.startswith over the underlying character lists. -/
def charsStartWith : List Char → List Char → Bool
  | _, [] => true
  | [], _ :: _ => false
  | c :: cs, d :: ds => c == d && charsStartWith cs ds

def nameStartsWith (s pre : String) : Bool := charsStartWith s.data pre.data

def checkpointMarker : String := "save_checkpoint_"

def fileStem : String := "save_"

def fileSep : String := "_"

def fileExt : String := ".json"

/-- Save filename from SaveManager.save_game / load_game (lines 40, 55). -/
def save_filename (save_type : String) (slot : ℕ) : String :=
  fileStem ++ save_type ++ fileSep ++ toString slot ++ fileExt

/-- os.path.exists plus open: the first directory entry with the name. -/
def lookupFile (fs : List FSEntry) (nm : String) : Option FSEntry :=
  fs.find? (fun e => e.name == nm)

/-- SaveManager._validate_checksum (lines 18-20): recompute the digest of
game_data and compare with the stored checksum. -/
def validate_checksum (hash : ℕ → ℕ) (sd : SaveData) : Bool :=
  hash sd.game_data == sd.checksum

/-- Stable insertion of an entry into a list sorted by modification time,
newest first: the incoming entry goes in front of the first entry that is
not strictly newer, so original order is kept among equal mtimes. -/
def insertMtimeDesc (a : FSEntry) : List FSEntry → List FSEntry
  | [] => [a]
  | f :: l => if f.mtime ≤ a.mtime then a :: f :: l else f :: insertMtimeDesc a l

/-- saves.sort(key=getmtime, reverse=True) (lines 84-85): a stable sort
by modification time, newest first, as Python's stable sort produces. -/
def sortMtimeDesc : List FSEntry → List FSEntry
  | [] => []
  | e :: rest => insertMtimeDesc e (sortMtimeDesc rest)

/-- The for-loop of SaveManager._load_fallback_save (lines 88-94): open
each candidate in order; a file that fails to parse raises, the exception
is caught by the method's own try and None is returned; a parsed file
whose checksum verifies is returned; otherwise continue. -/
def tryCheckpoints (hash : ℕ → ℕ) : List FSEntry → Option ℕ
  | [] => none
  | e :: rest =>
      match e.content with
      | none => none
      | some sd =>
          if validate_checksum hash sd then some sd.game_data
          else tryCheckpoints hash rest

/-- SaveManager._load_fallback_save (lines 75-100). -/
def load_fallback_save (hash : ℕ → ℕ) (fs : List FSEntry) : Option ℕ :=
  let saves := fs.filter (fun e => nameStartsWith e.name checkpointMarker)
  if saves.isEmpty then none
  else tryCheckpoints hash (sortMtimeDesc saves)

/-- SaveManager.load_game (lines 52-73): missing file yields None, an
unreadable file raises and the except clause yields None, a checksum
mismatch defers to the fallback chain. -/
def load_game (hash : ℕ → ℕ) (fs : List FSEntry) (save_type : String) (slot : ℕ) :
    Option ℕ :=
  match lookupFile fs (save_filename save_type slot) with
  | none => none
  | some e =>
      match e.content with
      | none => none
      | some sd =>
          if validate_checksum hash sd then some sd.game_data
          else load_fallback_save hash fs

/-- Does this directory entry hold a payload whose checksum verifies? -/
def checksumOK (hash : ℕ → ℕ) (e : FSEntry) : Bool :=
  match e.content with
  | some sd => validate_checksum hash sd
  | none => false

/-- Modelled from the spec: the fallback result the claim describes — the
first checkpoint save, in modification-time order newest first, whose
checksum verifies. -/
def fallbackSpec (hash : ℕ → ℕ) (fs : List FSEntry) : Option ℕ :=
  ((sortMtimeDesc (fs.filter (fun e => nameStartsWith e.name checkpointMarker))).find?
      (checksumOK hash)).bind (fun e => e.content.map SaveData.game_data)

theorem mem_insertMtimeDesc {e a : FSEntry} {l : List FSEntry}
    (h : e ∈ insertMtimeDesc a l) : e = a ∨ e ∈ l := by
  induction l with
  | nil => simpa [insertMtimeDesc] using h
  | cons f rest ih =>
    by_cases hle : f.mtime ≤ a.mtime
    · rw [insertMtimeDesc, if_pos hle] at h
      simpa using h
    · rw [insertMtimeDesc, if_neg hle] at h
      rcases List.mem_cons.mp h with h1 | h2
      · exact Or.inr (by simp [h1])
      · rcases ih h2 with h3 | h4
        · exact Or.inl h3
        · exact Or.inr (by simp [h4])

theorem mem_sortMtimeDesc {e : FSEntry} {l : List FSEntry}
    (h : e ∈ sortMtimeDesc l) : e ∈ l := by
  induction l with
  | nil => simp [sortMtimeDesc] at h
  | cons f rest ih =>
    rw [sortMtimeDesc] at h
    rcases mem_insertMtimeDesc h with h1 | h2
    · simp [h1]
    · simp [ih h2]

theorem tryCheckpoints_eq_find (hash : ℕ → ℕ) (l : List FSEntry)
    (hall : ∀ e ∈ l, e.content ≠ none) :
    tryCheckpoints hash l
      = (l.find? (checksumOK hash)).bind (fun e => e.content.map SaveData.game_data) := by
  induction l with
  | nil => rfl
  | cons e rest ih =>
    cases hc : e.content with
    | none => exact absurd hc (hall e (by simp))
    | some sd =>
      by_cases hv : validate_checksum hash sd = true
      · simp [tryCheckpoints, hc, hv, List.find?, checksumOK]
      · have hv' : validate_checksum hash sd = false := by
          revert hv
          cases validate_checksum hash sd <;> simp
        rw [tryCheckpoints]
        simp only [hc, hv', if_neg (by simp : ¬ (false = true))]
        rw [ih (fun f hf => hall f (by simp [hf]))]
        have hok : checksumOK hash e = false := by
          simp [checksumOK, hc, hv']
        simp [List.find?, hok]

/-- C9: load_game never raises — every failure path returns absence of
data: a missing file yields None, an unreadable file yields None, and a
checksum mismatch first defers to the fallback chain; the fallback, when
every checkpoint file parses, returns the payload of the first checkpoint
save in modification-time order (newest first) whose checksum verifies,
or None when none does. -/
theorem C9_load_game_never_crashes (hash : ℕ → ℕ) (fs : List FSEntry)
    (save_type : String) (slot : ℕ) (e : FSEntry) (sd : SaveData) :
    (lookupFile fs (save_filename save_type slot) = none →
        load_game hash fs save_type slot = none)
    ∧ (lookupFile fs (save_filename save_type slot) = some e → e.content = none →
        load_game hash fs save_type slot = none)
    ∧ (lookupFile fs (save_filename save_type slot) = some e → e.content = some sd →
        validate_checksum hash sd = false →
        load_game hash fs save_type slot = load_fallback_save hash fs)
    ∧ ((∀ f ∈ fs.filter (fun g => nameStartsWith g.name checkpointMarker),
          f.content ≠ none) →
        load_fallback_save hash fs = fallbackSpec hash fs) := by
  refine ⟨?_, ?_, ?_, ?_⟩
  · intro h
    rw [load_game, h]
  · intro h hc
    rw [load_game, h]
    simp only [hc]
  · intro h hc hv
    rw [load_game, h]
    simp only [hc, hv, if_neg (by simp : ¬ (false = true))]
  · intro hall
    rw [load_fallback_save, fallbackSpec]
    by_cases hemp : (fs.filter (fun g => nameStartsWith g.name checkpointMarker)).isEmpty
    · rw [if_pos hemp]
      have : fs.filter (fun g => nameStartsWith g.name checkpointMarker) = [] :=
        List.isEmpty_iff.mp hemp
      rw [this]
      rfl
    · rw [if_neg hemp]
      apply tryCheckpoints_eq_find
      intro f hf
      exact hall f (mem_sortMtimeDesc hf)

/-- A save directory whose manual slot is corrupt (stored checksum 999
does not match the recomputed digest), whose newer checkpoint (mtime 5)
is also corrupt, and whose older checkpoint (mtime 3) verifies.  The
digest function is the identity, so a file verifies exactly when its
stored checksum equals its payload. -/
def fsWitness : List FSEntry :=
  [ { name := "save_manual_0.json", mtime := 10, content := some { game_data := 1, checksum := 999 } }
  , { name := "save_checkpoint_1.json", mtime := 3, content := some { game_data := 3, checksum := 3 } }
  , { name := "save_checkpoint_0.json", mtime := 5, content := some { game_data := 2, checksum := 777 } } ]

/-- C9 witness: on the concrete directory, loading the corrupt manual
slot falls back to the checkpoint chain, which skips the newer corrupt
checkpoint and returns the older valid one (payload 3); a missing slot
loads as None. -/
theorem C9_load_game_never_crashes_witness :
    load_game (fun n => n) fsWitness "manual" 0 = load_fallback_save (fun n => n) fsWitness
    ∧ load_fallback_save (fun n => n) fsWitness = fallbackSpec (fun n => n) fsWitness
    ∧ load_game (fun n => n) fsWitness "manual" 0 = some 3
    ∧ load_game (fun n => n) fsWitness "manual" 1 = none := by
  have h := C9_load_game_never_crashes (fun n => n) fsWitness "manual" 0
    { name := "save_manual_0.json", mtime := 10, content := some { game_data := 1, checksum := 999 } }
    { game_data := 1, checksum := 999 }
  have h1 := h.2.2.1 (by decide) (by decide) (by decide)
  have h2 := h.2.2.2 (by decide)
  have h3 : load_fallback_save (fun n => n) fsWitness = some 3 := by decide
  have h4 := (C9_load_game_never_crashes (fun n => n) fsWitness "manual" 1
    { name := "save_manual_0.json", mtime := 10, content := none }
    { game_data := 1, checksum := 999 }).1 (by decide)
  exact ⟨h1, h2, h1.trans h3, h4⟩
